import Mathlib

/-!
Verification of the position-reconciliation / risk-rule system
(`event_listener.py`, `rules/rule_engine.py`, `rules/max_contracts_rule.py`).

The Python source is shallowly embedded: every handler becomes a pure Lean
function on an explicit state type; `await`-ed external calls (cache queries,
the propagation sleep, mitigation actions) become explicit parameters or
outcome values; event-loop times are rationals; Python ints are `Int`.
Presentation-only data (formatted average-price strings, P&L decoration,
emoji log text) is not modelled; each structured log category that a claim
mentions is modelled as an explicit outcome constructor.
-/

/-- Time values produced by `asyncio.get_event_loop().time()`. -/
abbrev Time := ℚ

/-- `EventListener.__init__`: `self._cache_ttl = 0.5`. -/
def cacheTtl : Time := 1/2

/-- `EventListener.__init__`: `self._ignore_reopen_window = 3.0`. -/
def ignoreReopenWindow : Time := 3

/-- The position dictionaries the listener builds and compares
(`{'contract', 'size', 'direction', ...}`); the formatted `avg_price` /
`pnl` strings are log decoration and are omitted. -/
structure PosInfo where
  contract : String
  size : Int
  direction : String
deriving DecidableEq, Repr

/-- `EventListener._decode_position_type`: decode the SDK `PositionType`
enum (`UNDEFINED = 0`, `LONG = 1`, `SHORT = 2`); unknown ints map to an
`UNKNOWN` string. -/
def decodePositionType (typeInt : Int) : String :=
  if typeInt = 0 then "UNDEFINED"
  else if typeInt = 1 then "LONG"
  else if typeInt = 2 then "SHORT"
  else "UNKNOWN"

/-- Python truthiness test `pos and abs(pos.get('size', 0)) > 0` on an
optional position dictionary. -/
def posNonzero : Option PosInfo → Bool
  | some p => p.size != 0
  | none => false

/-- `EventListener._classify_trade_action` (event_listener.py:414-448):
the string-valued classifier; the `order_side` argument is accepted but,
as in the source, never inspected. -/
def classifyTradeAction (prevPos currPos : Option PosInfo) (_orderSide : String) : String :=
  match prevPos, currPos with
  | none, some _ => "Open"
  | some _, none => "Close"
  | some p, some c =>
    if p.size.natAbs = 0 ∧ 0 < c.size.natAbs then "Open"
    else if c.size.natAbs = 0 ∧ 0 < p.size.natAbs then "Close"
    else if c.direction = p.direction then
      if p.size.natAbs < c.size.natAbs then "Add"
      else if c.size.natAbs < p.size.natAbs then "Reduce"
      else "Adjust"
    else "Flip"
  | none, none => "Unknown"

/-- Modelled from the spec: the §4.2 decision list, in the claim's order —
absent/present cases first, then the zero-size cases, then the
same-direction magnitude comparison giving Add/Reduce/Adjust, then the
differing-direction case giving Flip, else Unknown. -/
def classifySpecOrder : Option PosInfo → Option PosInfo → String
  | none, some _ => "Open"
  | some _, none => "Close"
  | some p, some c =>
    if p.size = 0 ∧ c.size ≠ 0 then "Open"
    else if c.size = 0 ∧ p.size ≠ 0 then "Close"
    else if c.direction = p.direction then
      if p.size.natAbs < c.size.natAbs then "Add"
      else if c.size.natAbs < p.size.natAbs then "Reduce"
      else "Adjust"
    else "Flip"
  | none, none => "Unknown"

/-- C5: the trade-action classifier is a total, pure, deterministic
function: every input pair yields exactly one of the seven labels, and the
result agrees with the spec-ordered decision list of §4.2. -/
theorem classify_total_spec_order (prevPos currPos : Option PosInfo) (orderSide : String) :
    classifyTradeAction prevPos currPos orderSide ∈
      ["Open", "Add", "Reduce", "Close", "Flip", "Adjust", "Unknown"] ∧
    classifyTradeAction prevPos currPos orderSide = classifySpecOrder prevPos currPos := by
  constructor
  · cases prevPos <;> cases currPos <;> simp only [classifyTradeAction] <;>
      (try split_ifs) <;> simp
  · cases prevPos <;> cases currPos <;>
      simp only [classifyTradeAction, classifySpecOrder, Int.natAbs_eq_zero,
        Int.natAbs_pos, ne_eq]

/-- C10: the classifier's result does not depend on the order-side
argument; the label is a function of the position pair alone. -/
theorem classify_side_independent (prevPos currPos : Option PosInfo) (s₁ s₂ : String) :
    classifyTradeAction prevPos currPos s₁ = classifyTradeAction prevPos currPos s₂ := rfl

/-- `EventListener.__init__`: the `self._trade_actions` counter dictionary
with its seven literal keys (note the source initialises a `"Reverse"` key
while the classifier emits `"Flip"`). -/
structure TradeActionCounts where
  openCount : ℕ
  addCount : ℕ
  reduceCount : ℕ
  closeCount : ℕ
  reverseCount : ℕ
  adjustCount : ℕ
  unknownCount : ℕ
deriving DecidableEq, Repr

/-- `self._trade_actions[key] += 1`: `none` models the `KeyError` raised
when `key` is not one of the dictionary's seven keys. -/
def TradeActionCounts.bump (t : TradeActionCounts) (key : String) : Option TradeActionCounts :=
  if key = "Open" then some { t with openCount := t.openCount + 1 }
  else if key = "Add" then some { t with addCount := t.addCount + 1 }
  else if key = "Reduce" then some { t with reduceCount := t.reduceCount + 1 }
  else if key = "Close" then some { t with closeCount := t.closeCount + 1 }
  else if key = "Reverse" then some { t with reverseCount := t.reverseCount + 1 }
  else if key = "Adjust" then some { t with adjustCount := t.adjustCount + 1 }
  else if key = "Unknown" then some { t with unknownCount := t.unknownCount + 1 }
  else none

def initialTradeActions : TradeActionCounts := ⟨0, 0, 0, 0, 0, 0, 0⟩

/-- The mutable fields of `EventListener` that the event handlers touch
(`event_counts`, `_last_confirmed_position`, `_position_flat_timestamp`,
`_stale_executions_filtered`, `_trade_actions`). -/
structure ListenerState where
  orderFilledCount : ℕ
  positionUpdatedCount : ℕ
  pnlUpdateCount : ℕ
  lastConfirmedPosition : Option PosInfo
  positionFlatTimestamp : Option Time
  staleExecutionsFiltered : ℕ
  tradeActions : TradeActionCounts
deriving DecidableEq, Repr

def initialListenerState : ListenerState :=
  ⟨0, 0, 0, none, none, 0, initialTradeActions⟩

/-- Python truthiness test
`self._position_flat_timestamp and (now - self._position_flat_timestamp) < window`. -/
def withinWindowB (now : Time) : Option Time → Bool
  | some t => decide (now - t < ignoreReopenWindow)
  | none => false

/-- A position-update payload after `_safe_get` decoding (`contractId`,
`size`, `averagePrice`, `type`, with the source's defaults applied). -/
structure PositionEvent where
  contractId : String
  size : Int
  averagePrice : ℚ
  posType : Int
deriving DecidableEq, Repr

/-- The distinct structured log category the position-update handler emits
(manual close, ghost-reopen warning, or an accepted update). -/
inductive UpdateOutcome where
  | manualClose
  | ghostSuppressed
  | accepted
deriving DecidableEq, Repr

/-- `EventListener._on_position_updated` (event_listener.py:296-358).
The manual-close branch sets the flat marker and then falls through
(no `return` in the source) to the confirmed-position update; the
ghost-reopen branch returns before mutating the confirmed position;
the trailing risk-rules/plain logging branch is presentation only and
is not modelled. -/
def onPositionUpdated (now : Time) (ev : PositionEvent) (s : ListenerState) :
    ListenerState × UpdateOutcome :=
  let s₁ : ListenerState := { s with positionUpdatedCount := s.positionUpdatedCount + 1 }
  let decoded : PosInfo := ⟨ev.contractId, ev.size, decodePositionType ev.posType⟩
  if ev.size = 0 ∧ posNonzero s.lastConfirmedPosition = true then
    ({ s₁ with positionFlatTimestamp := some now, lastConfirmedPosition := some decoded },
      UpdateOutcome.manualClose)
  else if ev.size ≠ 0 ∧ withinWindowB now s.positionFlatTimestamp = true then
    (s₁, UpdateOutcome.ghostSuppressed)
  else
    ({ s₁ with lastConfirmedPosition := some decoded }, UpdateOutcome.accepted)

/-- C2: with a manual-close marker at `t0`, a nonzero position-update
inside the 3.0-unit window is suppressed — confirmed position untouched,
marker neither reset nor extended — while a nonzero update at or past the
window boundary is accepted and overwrites the confirmed position with
the decoded payload. -/
theorem ghost_reopen_window (now t₀ : Time) (ev : PositionEvent) (s : ListenerState)
    (hm : s.positionFlatTimestamp = some t₀) (hnz : ev.size ≠ 0) :
    (now - t₀ < ignoreReopenWindow →
      (onPositionUpdated now ev s).2 = UpdateOutcome.ghostSuppressed ∧
      (onPositionUpdated now ev s).1.lastConfirmedPosition = s.lastConfirmedPosition ∧
      (onPositionUpdated now ev s).1.positionFlatTimestamp = some t₀) ∧
    (ignoreReopenWindow ≤ now - t₀ →
      (onPositionUpdated now ev s).2 = UpdateOutcome.accepted ∧
      (onPositionUpdated now ev s).1.lastConfirmedPosition =
        some ⟨ev.contractId, ev.size, decodePositionType ev.posType⟩) := by
  constructor
  · intro hin
    have hw : withinWindowB now (some t₀) = true := by
      simp [withinWindowB, hin]
    simp [onPositionUpdated, hnz, hm, hw]
  · intro hout
    have hw : withinWindowB now (some t₀) = false := by
      simp [withinWindowB]; linarith
    simp [onPositionUpdated, hnz, hm, hw]

/-- C2 witness: marker at `t₀ = 10`; a size-5 update at `t₀ + 1` is
suppressed without touching state, and one at `t₀ + 3.1` is accepted and
updates the confirmed position. -/
theorem ghost_reopen_window_witness :
    (onPositionUpdated 11 ⟨"MNQ", 5, 100, 1⟩
        { initialListenerState with positionFlatTimestamp := some 10 }).2 =
      UpdateOutcome.ghostSuppressed ∧
    (onPositionUpdated 11 ⟨"MNQ", 5, 100, 1⟩
        { initialListenerState with positionFlatTimestamp := some 10 }).1.lastConfirmedPosition =
      none ∧
    (onPositionUpdated (131/10) ⟨"MNQ", 5, 100, 1⟩
        { initialListenerState with positionFlatTimestamp := some 10 }).2 =
      UpdateOutcome.accepted ∧
    (onPositionUpdated (131/10) ⟨"MNQ", 5, 100, 1⟩
        { initialListenerState with positionFlatTimestamp := some 10 }).1.lastConfirmedPosition =
      some ⟨"MNQ", 5, "LONG"⟩ := by
  have h₁ := ghost_reopen_window 11 10 ⟨"MNQ", 5, 100, 1⟩
    { initialListenerState with positionFlatTimestamp := some 10 } rfl (by decide)
  have h₂ := ghost_reopen_window (131/10) 10 ⟨"MNQ", 5, 100, 1⟩
    { initialListenerState with positionFlatTimestamp := some 10 } rfl (by decide)
  have hin : (11 : Time) - 10 < ignoreReopenWindow := by norm_num [ignoreReopenWindow]
  have hout : ignoreReopenWindow ≤ (131/10 : Time) - 10 := by norm_num [ignoreReopenWindow]
  obtain ⟨ha, hb, -⟩ := h₁.1 hin
  obtain ⟨hc, hd⟩ := h₂.2 hout
  refine ⟨ha, ?_, hc, ?_⟩
  · rw [hb]
    rfl
  · rw [hd]
    rfl

/-- A raw position object returned by
`suite["MNQ"].positions.get_all_positions()`. -/
structure RawPosition where
  contractId : String
  size : Int
  posType : Int
  averagePrice : ℚ
deriving DecidableEq, Repr

/-- Outcome of one awaited `get_all_positions()` call: a list of
positions, or an exception (caught by the handler). -/
inductive QueryOutcome where
  | ok (positions : List RawPosition)
  | fail
deriving DecidableEq, Repr

/-- `EventListener` cache fields: `self._position_cache` (a dict or
`None`) and `self._cache_timestamp` (initially `0`). -/
structure CacheState where
  positionCache : Option PosInfo
  cacheTimestamp : Time
deriving DecidableEq, Repr

def initialCacheState : CacheState := ⟨none, 0⟩

/-- Return value of one modelled call to
`EventListener._get_current_position_info`: the cache state afterwards,
the returned optional position dict, whether a live
`get_all_positions()` query was performed, and whether the recoverable
"Could not fetch position info" warning was logged. -/
structure CacheReadResult where
  state : CacheState
  result : Option PosInfo
  queried : Bool
  warned : Bool
deriving DecidableEq, Repr

/-- `EventListener._get_current_position_info` (event_listener.py:500-558).
The cache-hit test is the source's truthiness conjunction
`not force_refresh and self._position_cache and (now - ts) < ttl`, so a
cached `None` ("no position") never satisfies it; on an empty or falsy
query result the source stores `None` with the current timestamp; on a
query exception it logs a warning and returns `None` without touching
the cache. The P&L decoration of the result dict is omitted. -/
def getCurrentPositionInfo (suitePresent forceRefresh : Bool) (now : Time)
    (q : QueryOutcome) (s : CacheState) : CacheReadResult :=
  if suitePresent = false then ⟨s, none, false, false⟩
  else if forceRefresh = false ∧ s.positionCache.isSome = true ∧
      now - s.cacheTimestamp < cacheTtl then
    ⟨s, s.positionCache, false, false⟩
  else
    match q with
    | QueryOutcome.fail => ⟨s, none, true, true⟩
    | QueryOutcome.ok [] => ⟨⟨none, now⟩, none, true, false⟩
    | QueryOutcome.ok (p :: _) =>
      let r : PosInfo := ⟨p.contractId, p.size, decodePositionType p.posType⟩
      ⟨⟨some r, now⟩, some r, true, false⟩

/-- C3: the code at the claim's failing input — a live query that finds
no position stores the `None` result with the current timestamp, yet a
second `get(false)` read `0.2` units later (well inside the `0.5` TTL)
performs another underlying query instead of serving the stored value,
because the source's cache-hit test requires a truthy cached dict. -/
theorem cache_no_position_not_served :
    (getCurrentPositionInfo true false 1 (QueryOutcome.ok []) initialCacheState).queried
        = true ∧
    (getCurrentPositionInfo true false 1 (QueryOutcome.ok []) initialCacheState).state
        = ⟨none, 1⟩ ∧
    (getCurrentPositionInfo true false (6/5) (QueryOutcome.ok [])
        (getCurrentPositionInfo true false 1 (QueryOutcome.ok []) initialCacheState).state).queried
        = true ∧
    (6/5 : Time) - 1 < cacheTtl := by
  refine ⟨rfl, rfl, rfl, by norm_num [cacheTtl]⟩

/-- C9 counterexample: the claim's "returns the last known cached value
(or absent)" is false on the code at a populated-cache input. Concrete
input: the cache holds a known position; a force-refresh read at time
`1` whose underlying query fails performs the query and returns `none`
rather than the cached value — which is still sitting in the cache. -/
theorem cache_failure_not_last_known_cex :
    (getCurrentPositionInfo true true 1 QueryOutcome.fail
        ⟨some ⟨"MNQ", 5, "LONG"⟩, 1⟩).queried = true ∧
    (getCurrentPositionInfo true true 1 QueryOutcome.fail
        ⟨some ⟨"MNQ", 5, "LONG"⟩, 1⟩).state.positionCache = some ⟨"MNQ", 5, "LONG"⟩ ∧
    (getCurrentPositionInfo true true 1 QueryOutcome.fail
        ⟨some ⟨"MNQ", 5, "LONG"⟩, 1⟩).result = none ∧
    (getCurrentPositionInfo true true 1 QueryOutcome.fail
        ⟨some ⟨"MNQ", 5, "LONG"⟩, 1⟩).result ≠ some ⟨"MNQ", 5, "LONG"⟩ := by
  refine ⟨rfl, rfl, rfl, by decide⟩

/-- C9 (amended): a snapshot-cache read whose underlying position query
fails does not propagate the failure: it returns absent (`None`) — even
when a last known cached value exists — logs the recoverable warning,
and leaves the cache entry, the last known value, untouched for later
reads. -/
theorem cache_query_failure_recovery (forceRefresh : Bool) (now : Time) (s : CacheState)
    (h : (getCurrentPositionInfo true forceRefresh now QueryOutcome.fail s).queried = true) :
    (getCurrentPositionInfo true forceRefresh now QueryOutcome.fail s).result = none ∧
    (getCurrentPositionInfo true forceRefresh now QueryOutcome.fail s).warned = true ∧
    (getCurrentPositionInfo true forceRefresh now QueryOutcome.fail s).state = s := by
  unfold getCurrentPositionInfo at h ⊢
  simp only [Bool.true_eq_false, if_false] at h ⊢
  split at h
  · simp at h
  · split <;> simp_all

/-- C9 amended-claim witness: a force-refresh read at time `1` on the
initial cache with a failing query returns `none`, warns, and leaves the
cache as it was. -/
theorem cache_query_failure_recovery_witness :
    (getCurrentPositionInfo true true 1 QueryOutcome.fail initialCacheState).result = none ∧
    (getCurrentPositionInfo true true 1 QueryOutcome.fail initialCacheState).warned = true ∧
    (getCurrentPositionInfo true true 1 QueryOutcome.fail initialCacheState).state
      = initialCacheState :=
  cache_query_failure_recovery true 1 initialCacheState rfl

/-- `MaxContractsConfig` (max_contracts_rule.py:18-24). -/
structure MaxContractsConfig where
  enabled : Bool
  maxSize : Int
  severity : String
  autoFlatten : Bool
deriving DecidableEq, Repr

/-- `MaxContractsRule`: its config plus the mutable `self._breach_count`. -/
structure MaxContractsRule where
  config : MaxContractsConfig
  breachCount : ℕ
deriving DecidableEq, Repr

/-- The event payloads `RuleEngine.process_event` forwards into
`MaxContractsRule.check`, as the shapes `_extract_position_data`
distinguishes: the enriched order-fill wrapper (its `order_event`
contract/account chains collapsed to one optional value each), a plain
position-update dict (`positionSize` = the `position`/`new_position`
sub-dict's size when such a sub-dict exists, `selfSize` = the event's own
`size` key), or a payload whose field access raises. -/
inductive RiskEvent where
  | enriched (orderContractId orderAccountId : Option String)
      (currentPosition : Option PosInfo)
  | plain (contractId accountId : Option String)
      (positionSize : Option Int) (selfSize : Option Int)
  | malformedPayload
deriving DecidableEq, Repr

/-- `MaxContractsRule._extract_position_data` (max_contracts_rule.py:81-128).
On the enriched shape with a present `current_position` dict, the
contract chain falls back to `current_pos['contractId']`; the listener's
cache dict keys that entry `'contract'`, so the subscript raises
`KeyError`, the except-branch returns `None`, and the rule passes — hence
the `none` result when the order event carries no contract id. With
`current_position` absent (`None`, falsy) the code falls through to the
plain-dict handling of the wrapper dict, which has no position or size
keys, extracting size `0`. -/
def extractPositionData : RiskEvent → Option (String × String × Int)
  | RiskEvent.enriched (some c) oa (some p) =>
    some (c, oa.getD "unknown", (p.size.natAbs : Int))
  | RiskEvent.enriched none _ (some _) => none
  | RiskEvent.enriched _ _ none => some ("unknown", "unknown", 0)
  | RiskEvent.plain co ao pos selfSize =>
    some (co.getD "unknown", ao.getD "unknown",
      match pos with
      | some n => n
      | none => selfSize.getD 0)
  | RiskEvent.malformedPayload => none

/-- Result of one `MaxContractsRule.check` call: the returned pass/breach
bool, the rule object afterwards (breach counter), and whether the
`_auto_flatten` external close-position action was invoked. -/
structure CheckResult where
  passed : Bool
  rule : MaxContractsRule
  autoFlattenAttempted : Bool
deriving DecidableEq, Repr

/-- `MaxContractsRule.check` (max_contracts_rule.py:45-79) together with
`_handle_breach` (130-139): disabled → pass; extraction failure → pass
(fail-open); `abs(size) > max_size` → `_handle_breach` (counter + 1,
breach log, optional auto-flatten) and breach; otherwise pass. -/
def MaxContractsRule.check (r : MaxContractsRule) (ev : RiskEvent) : CheckResult :=
  if r.config.enabled = false then ⟨true, r, false⟩
  else
    match extractPositionData ev with
    | none => ⟨true, r, false⟩
    | some (_, _, size) =>
      if r.config.maxSize < (size.natAbs : Int) then
        ⟨false, { r with breachCount := r.breachCount + 1 }, r.config.autoFlatten⟩
      else ⟨true, r, false⟩

/-- C6: on a plain position payload, the max-position-size rule passes
when disabled; breaches and bumps its counter by exactly one when
`abs(size) > maxSize`; and passes with the counter unchanged when
`abs(size) <= maxSize`. -/
theorem max_contracts_check_spec (cfg : MaxContractsConfig) (n : ℕ)
    (co ao : Option String) (sz : Int) (selfSize : Option Int) :
    (cfg.enabled = false →
      (MaxContractsRule.check ⟨cfg, n⟩ (RiskEvent.plain co ao (some sz) selfSize)).passed
          = true ∧
      (MaxContractsRule.check ⟨cfg, n⟩
          (RiskEvent.plain co ao (some sz) selfSize)).rule.breachCount = n) ∧
    (cfg.enabled = true → cfg.maxSize < (sz.natAbs : Int) →
      (MaxContractsRule.check ⟨cfg, n⟩ (RiskEvent.plain co ao (some sz) selfSize)).passed
          = false ∧
      (MaxContractsRule.check ⟨cfg, n⟩
          (RiskEvent.plain co ao (some sz) selfSize)).rule.breachCount = n + 1) ∧
    (cfg.enabled = true → (sz.natAbs : Int) ≤ cfg.maxSize →
      (MaxContractsRule.check ⟨cfg, n⟩ (RiskEvent.plain co ao (some sz) selfSize)).passed
          = true ∧
      (MaxContractsRule.check ⟨cfg, n⟩
          (RiskEvent.plain co ao (some sz) selfSize)).rule.breachCount = n) := by
  refine ⟨fun hd => ?_, fun he hb => ?_, fun he hp => ?_⟩
  · simp [MaxContractsRule.check, hd]
  · rw [Int.natCast_natAbs] at hb
    simp [MaxContractsRule.check, he, extractPositionData, hb]
  · rw [Int.natCast_natAbs] at hp
    have hnb : ¬ (cfg.maxSize < |sz|) := not_lt.mpr hp
    simp [MaxContractsRule.check, he, extractPositionData, hnb]

/-- C6 witness: with the rule enabled at `maxSize = 2`, a size-5 position
breaches and bumps the counter from 0 to 1; a size-2 position passes with
the counter unchanged; the disabled rule passes on the same payload. -/
theorem max_contracts_check_spec_witness :
    (MaxContractsRule.check ⟨⟨true, 2, "high", false⟩, 0⟩
        (RiskEvent.plain (some "MNQ") (some "ACCT") (some 5) none)).passed = false ∧
    (MaxContractsRule.check ⟨⟨true, 2, "high", false⟩, 0⟩
        (RiskEvent.plain (some "MNQ") (some "ACCT") (some 5) none)).rule.breachCount = 1 ∧
    (MaxContractsRule.check ⟨⟨true, 2, "high", false⟩, 0⟩
        (RiskEvent.plain (some "MNQ") (some "ACCT") (some 2) none)).passed = true ∧
    (MaxContractsRule.check ⟨⟨true, 2, "high", false⟩, 0⟩
        (RiskEvent.plain (some "MNQ") (some "ACCT") (some 2) none)).rule.breachCount = 0 ∧
    (MaxContractsRule.check ⟨⟨false, 2, "high", false⟩, 0⟩
        (RiskEvent.plain (some "MNQ") (some "ACCT") (some 5) none)).passed = true := by
  have h₁ := max_contracts_check_spec ⟨true, 2, "high", false⟩ 0
    (some "MNQ") (some "ACCT") 5 none
  have h₂ := max_contracts_check_spec ⟨true, 2, "high", false⟩ 0
    (some "MNQ") (some "ACCT") 2 none
  have h₃ := max_contracts_check_spec ⟨false, 2, "high", false⟩ 0
    (some "MNQ") (some "ACCT") 5 none
  obtain ⟨hb₁, hb₂⟩ := h₁.2.1 rfl (by decide)
  obtain ⟨hp₁, hp₂⟩ := h₂.2.2 rfl (by decide)
  exact ⟨hb₁, hb₂, hp₁, hp₂, (h₃.1 rfl).1⟩

/-- `MaxContractsRule.get_stats` (max_contracts_rule.py:180-189). -/
structure RuleStats where
  ruleName : String
  enabled : Bool
  maxSize : Int
  severity : String
  autoFlatten : Bool
  breachCount : ℕ
deriving DecidableEq, Repr

def MaxContractsRule.getStats (r : MaxContractsRule) : RuleStats :=
  ⟨"max_contracts", r.config.enabled, r.config.maxSize, r.config.severity,
    r.config.autoFlatten, r.breachCount⟩

/-- `RuleEngine.stats` (rule_engine.py:38-42). -/
structure EngineStats where
  eventsProcessed : ℕ
  rulesChecked : ℕ
  breachesDetected : ℕ
deriving DecidableEq, Repr

/-- A `breach_info` entry appended by `process_event`: the rule class
name and the stats snapshot taken after the check. -/
structure BreachInfo where
  rule : String
  ruleConfig : RuleStats
deriving DecidableEq, Repr

/-- The `results` dict returned by `process_event` (the `actions_taken`
list is derived logging and is omitted). -/
structure ProcessResults where
  eventType : String
  rulesChecked : ℕ
  breaches : List BreachInfo
deriving DecidableEq, Repr

/-- The parsed `max_contracts` section of the configuration file. -/
structure RawMaxContractsCfg where
  enabled : Bool
  maxSize : Int
  severity : String
  autoFlatten : Bool
deriving DecidableEq, Repr

/-- The parsed configuration document: its `rules.max_contracts` mapping
(if any) and the `global.dry_run` flag (if any). -/
structure RiskConfig where
  maxContracts : Option RawMaxContractsCfg
  globalDryRun : Option Bool
deriving DecidableEq, Repr

/-- `RuleEngine` mutable state: `self.config`, `self.rules`,
`self.stats`. -/
structure RuleEngineState where
  config : RiskConfig
  rules : List MaxContractsRule
  stats : EngineStats
deriving DecidableEq, Repr

/-- `RuleEngine.__init__` (rule_engine.py:28-42): empty config dict, no
rules, zeroed stats. -/
def newRuleEngine : RuleEngineState := ⟨⟨none, none⟩, [], ⟨0, 0, 0⟩⟩

/-- The `for rule in self.rules` loop of `process_event`
(rule_engine.py:111-136): returns the rules after their checks, the
number of checks run, and the breach records in iteration order. -/
def runRules (ev : RiskEvent) : List MaxContractsRule →
    List MaxContractsRule × ℕ × List BreachInfo
  | [] => ([], 0, [])
  | r :: rs =>
    let c := r.check ev
    let rest := runRules ev rs
    (c.rule :: rest.1, rest.2.1 + 1,
      if c.passed = true then rest.2.2
      else BreachInfo.mk "MaxContractsRule" c.rule.getStats :: rest.2.2)

/-- `RuleEngine.process_event` (rule_engine.py:84-137): bump
`events_processed`; events of other kinds return with zero rules checked;
otherwise every rule in `self.rules` is checked once, the engine's
`rules_checked` / `breaches_detected` counters and the per-event results
are accumulated. -/
def processEvent (eventType : String) (ev : RiskEvent) (e : RuleEngineState) :
    RuleEngineState × ProcessResults :=
  let stats₁ : EngineStats := { e.stats with eventsProcessed := e.stats.eventsProcessed + 1 }
  if eventType ≠ "position_updated" ∧ eventType ≠ "order_filled" then
    ({ e with stats := stats₁ }, ⟨eventType, 0, []⟩)
  else
    let out := runRules ev e.rules
    ({ e with
        rules := out.1,
        stats := { stats₁ with
          rulesChecked := stats₁.rulesChecked + out.2.1,
          breachesDetected := stats₁.breachesDetected + out.2.2.length } },
      ⟨eventType, out.2.1, out.2.2⟩)

theorem runRules_length_breaches (ev : RiskEvent) (rs : List MaxContractsRule) :
    (runRules ev rs).2.1 = rs.length ∧
    (runRules ev rs).1 = rs.map (fun r => (r.check ev).rule) ∧
    (runRules ev rs).2.2 = rs.filterMap (fun r =>
      if (r.check ev).passed = true then none
      else some (BreachInfo.mk "MaxContractsRule" (r.check ev).rule.getStats)) ∧
    ((runRules ev rs).2.2).length =
      (rs.filter (fun r => (r.check ev).passed = false)).length := by
  induction rs with
  | nil => simp [runRules]
  | cons r rs ih =>
    refine ⟨by simp [runRules, ih.1], by simp [runRules, ih.2.1], ?_, ?_⟩
    · by_cases hp : (r.check ev).passed = true <;>
        simp [runRules, hp, List.filterMap_cons, ih.2.2.1]
    · by_cases hp : (r.check ev).passed = true <;>
        simp [runRules, hp, List.filter_cons, ih.2.2.2]

/-- C7: for a risk-evaluable event kind, `process_event` checks every
loaded rule exactly once (each stored rule is replaced by its
single-check result and `rulesChecked` equals the number of loaded
rules), and the breaches list holds exactly one record — rule class name
plus post-check stats snapshot — per rule whose check did not pass. -/
theorem process_event_aggregation (eventType : String) (ev : RiskEvent)
    (e : RuleEngineState)
    (hk : eventType = "position_updated" ∨ eventType = "order_filled") :
    (processEvent eventType ev e).2.rulesChecked = e.rules.length ∧
    (processEvent eventType ev e).1.rules = e.rules.map (fun r => (r.check ev).rule) ∧
    (processEvent eventType ev e).2.breaches = e.rules.filterMap (fun r =>
      if (r.check ev).passed = true then none
      else some (BreachInfo.mk "MaxContractsRule" (r.check ev).rule.getStats)) ∧
    (processEvent eventType ev e).2.breaches.length =
      (e.rules.filter (fun r => (r.check ev).passed = false)).length ∧
    (processEvent eventType ev e).1.stats.rulesChecked =
      e.stats.rulesChecked + e.rules.length ∧
    (processEvent eventType ev e).1.stats.eventsProcessed =
      e.stats.eventsProcessed + 1 := by
  have hcond : ¬ (eventType ≠ "position_updated" ∧ eventType ≠ "order_filled") := by
    rcases hk with h | h <;> simp [h]
  have hrr := runRules_length_breaches ev e.rules
  refine ⟨?_, ?_, ?_, ?_, ?_, ?_⟩ <;>
    simp only [processEvent, if_neg hcond]
  · exact hrr.1
  · exact hrr.2.1
  · exact hrr.2.2.1
  · exact hrr.2.2.2
  · rw [hrr.1]

/-- C7 witness: two enabled rules (limits 10 and 2) against a size-5
position-update payload — two rules checked, exactly one breach record,
naming the rule class and its post-check stats. -/
theorem process_event_aggregation_witness :
    (processEvent "position_updated"
        (RiskEvent.plain (some "MNQ") (some "ACCT") (some 5) none)
        ⟨⟨none, none⟩, [⟨⟨true, 10, "high", false⟩, 0⟩, ⟨⟨true, 2, "high", false⟩, 0⟩],
          ⟨0, 0, 0⟩⟩).2.rulesChecked = 2 ∧
    (processEvent "position_updated"
        (RiskEvent.plain (some "MNQ") (some "ACCT") (some 5) none)
        ⟨⟨none, none⟩, [⟨⟨true, 10, "high", false⟩, 0⟩, ⟨⟨true, 2, "high", false⟩, 0⟩],
          ⟨0, 0, 0⟩⟩).2.breaches.length = 1 ∧
    (processEvent "position_updated"
        (RiskEvent.plain (some "MNQ") (some "ACCT") (some 5) none)
        ⟨⟨none, none⟩, [⟨⟨true, 10, "high", false⟩, 0⟩, ⟨⟨true, 2, "high", false⟩, 0⟩],
          ⟨0, 0, 0⟩⟩).2.breaches =
      [⟨"MaxContractsRule", ⟨"max_contracts", true, 2, "high", false, 1⟩⟩] := by
  have h := process_event_aggregation "position_updated"
    (RiskEvent.plain (some "MNQ") (some "ACCT") (some 5) none)
    ⟨⟨none, none⟩, [⟨⟨true, 10, "high", false⟩, 0⟩, ⟨⟨true, 2, "high", false⟩, 0⟩],
      ⟨0, 0, 0⟩⟩ (Or.inl rfl)
  refine ⟨?_, ?_, ?_⟩
  · rw [h.1]
    rfl
  · rw [h.2.2.2.1]
    decide
  · rw [h.2.2.1]
    decide

/-- State of the configuration file as `_load_config` observes it:
absent, present but unparseable (`json.load` raises), or parsed into a
well-formed document. -/
inductive ConfigFileState where
  | missing
  | malformed
  | valid (maxContracts : Option RawMaxContractsCfg) (globalDryRun : Option Bool)
deriving DecidableEq, Repr

/-- Log level of the message `_load_config` emits. -/
inductive LogLevel where
  | info
  | warning
  | error
deriving DecidableEq, Repr

/-- The fallback document `{"rules": {}, "global": {"dry_run": True}}`
used for a missing or malformed file. -/
def fallbackRiskConfig : RiskConfig := ⟨none, some true⟩

/-- `RuleEngine._load_config` (rule_engine.py:50-66): missing file →
fallback config with a warning; any load exception → fallback config
with an error; otherwise the parsed document. Total by construction —
the source's blanket `except` means no outcome escapes to the caller. -/
def loadConfig : ConfigFileState → RiskConfig × LogLevel
  | ConfigFileState.missing => (fallbackRiskConfig, LogLevel.warning)
  | ConfigFileState.malformed => (fallbackRiskConfig, LogLevel.error)
  | ConfigFileState.valid mc d => (⟨mc, d⟩, LogLevel.info)

/-- `RuleEngine._initialize_rules` (rule_engine.py:68-82): if the
`max_contracts` section exists and is enabled, construct a fresh
`MaxContractsRule` and append it to `self.rules` — the source never
clears the list first. -/
def initializeRules (c : RiskConfig) (rules : List MaxContractsRule) :
    List MaxContractsRule :=
  match c.maxContracts with
  | some rc =>
    if rc.enabled = true then
      rules ++ [⟨⟨rc.enabled, rc.maxSize, rc.severity, rc.autoFlatten⟩, 0⟩]
    else rules
  | none => rules

/-- `RuleEngine.initialize` (rule_engine.py:44-48): `_load_config` then
`_initialize_rules`. -/
def engineInitialize (fs : ConfigFileState) (e : RuleEngineState) :
    RuleEngineState × LogLevel :=
  let lc := loadConfig fs
  ({ e with config := lc.1, rules := initializeRules lc.1 e.rules }, lc.2)

/-- `RuleEngine.reload_config` (rule_engine.py:150-154): identical body —
`_load_config` then `_initialize_rules`, again appending to the live
`self.rules` list. -/
def reloadConfig (fs : ConfigFileState) (e : RuleEngineState) :
    RuleEngineState × LogLevel :=
  let lc := loadConfig fs
  ({ e with config := lc.1, rules := initializeRules lc.1 e.rules }, lc.2)

/-- C8: config loading never escapes to the caller (the model is total
because the source's blanket `except` converts every failure): a missing
file yields the safe dry-run fallback with a warning logged and no rule
instances added, and a malformed file yields the same fallback with an
error logged and no rule instances added; on the fresh engine both leave
the rule set empty. -/
theorem config_load_failure_fallback (e : RuleEngineState) :
    (loadConfig ConfigFileState.missing).1 = fallbackRiskConfig ∧
    (loadConfig ConfigFileState.missing).2 = LogLevel.warning ∧
    (loadConfig ConfigFileState.malformed).1 = fallbackRiskConfig ∧
    (loadConfig ConfigFileState.malformed).2 = LogLevel.error ∧
    (engineInitialize ConfigFileState.missing e).1.rules = e.rules ∧
    (engineInitialize ConfigFileState.malformed e).1.rules = e.rules ∧
    (engineInitialize ConfigFileState.missing newRuleEngine).1.rules = [] ∧
    (engineInitialize ConfigFileState.malformed newRuleEngine).1.rules = [] := by
  refine ⟨rfl, rfl, rfl, rfl, rfl, rfl, rfl, rfl⟩

/-- C4: the claim's failing input evaluated on the code — a config file
enabling `max_contracts`, `initialize()` once, then one
`reload_config()`: because `_initialize_rules` appends to `self.rules`
without clearing it, the single enabled rule config is now represented
by two loaded rule instances, not one. -/
theorem reload_config_duplicates_rule_instances :
    (engineInitialize (ConfigFileState.valid (some ⟨true, 3, "high", false⟩) (some true))
        newRuleEngine).1.rules.length = 1 ∧
    (reloadConfig (ConfigFileState.valid (some ⟨true, 3, "high", false⟩) (some true))
        (engineInitialize
          (ConfigFileState.valid (some ⟨true, 3, "high", false⟩) (some true))
          newRuleEngine).1).1.rules.length = 2 ∧
    (reloadConfig (ConfigFileState.valid (some ⟨true, 3, "high", false⟩) (some true))
        (engineInitialize
          (ConfigFileState.valid (some ⟨true, 3, "high", false⟩) (some true))
          newRuleEngine).1).1.rules =
      [⟨⟨true, 3, "high", false⟩, 0⟩, ⟨⟨true, 3, "high", false⟩, 0⟩] := by
  refine ⟨rfl, rfl, rfl⟩

/-- `_on_order_filled` stale test (event_listener.py:214-218): Python
truthiness conjunction `self._position_flat_timestamp and
(now - ts) < window and current_position and abs(size) > 0`. -/
def isStaleAfterManualClose (now : Time) (marker : Option Time)
    (currentPosition : Option PosInfo) : Bool :=
  withinWindowB now marker && posNonzero currentPosition

/-- The distinct structured outcome of the order-fill handler: the
stale-execution-ignored log, a trade-executed log with the classified
action, or the caught exception path (the `KeyError` raised by
`self._trade_actions["Flip"]`, absorbed by the handler's blanket
`except`). -/
inductive FillOutcome where
  | staleIgnored
  | executed (action : String)
  | handlerError
deriving DecidableEq, Repr

/-- `EventListener._on_order_filled` (event_listener.py:185-270), with
the two awaited cache reads (before and after the 0.1-unit propagation
sleep) passed in as `prevPos` / `currPos` and the post-sleep event-loop
time as `now`. The stale branch bumps `_stale_executions_filtered` and
returns; otherwise the fill is classified and the per-action counter is
bumped (a missing counter key raises, caught by the handler's blanket
`except` after `event_counts` was already bumped). The confirmed
position is never touched by this handler. -/
def onOrderFilled (now : Time) (prevPos currPos : Option PosInfo) (side : String)
    (s : ListenerState) : ListenerState × FillOutcome :=
  let s₁ : ListenerState := { s with orderFilledCount := s.orderFilledCount + 1 }
  if isStaleAfterManualClose now s.positionFlatTimestamp currPos = true then
    ({ s₁ with staleExecutionsFiltered := s₁.staleExecutionsFiltered + 1 },
      FillOutcome.staleIgnored)
  else
    let action := classifyTradeAction prevPos currPos side
    match s₁.tradeActions.bump action with
    | some counts => ({ s₁ with tradeActions := counts }, FillOutcome.executed action)
    | none => (s₁, FillOutcome.handlerError)

/-- Combined result of `_on_order_filled_with_risk_check`: listener and
cache state afterwards, the rule-engine state afterwards, the inner
handler's outcome, and whether the risk handler
(`RiskEventHandler.on_order_filled` → `RuleEngine.process_event`) was
invoked for this fill. -/
structure RiskCheckedFillResult where
  listener : ListenerState
  cache : CacheState
  engine : RuleEngineState
  outcome : FillOutcome
  riskEvaluated : Bool
deriving DecidableEq, Repr

/-- `EventListener._on_order_filled_with_risk_check`
(event_listener.py:272-294): always runs `_on_order_filled` first, and
then — whenever risk rules are enabled, with no staleness test — performs
a force-refresh cache read, wraps the fill in the enriched event, and
hands it to the risk handler, whose `on_order_filled` calls
`rule_engine.process_event('order_filled', ...)`. `q` is the outcome of
the force-refresh read's underlying query. -/
def onOrderFilledWithRiskCheck (enableRiskRules : Bool) (now : Time)
    (prevPos currPos : Option PosInfo) (side : String)
    (orderContractId orderAccountId : Option String) (q : QueryOutcome)
    (s : ListenerState) (cache : CacheState) (eng : RuleEngineState) :
    RiskCheckedFillResult :=
  let first := onOrderFilled now prevPos currPos side s
  if enableRiskRules = true then
    let fr := getCurrentPositionInfo true true now q cache
    let ev := RiskEvent.enriched orderContractId orderAccountId fr.result
    let pe := processEvent "order_filled" ev eng
    ⟨first.1, fr.state, pe.1, first.2, true⟩
  else ⟨first.1, cache, eng, first.2, false⟩

/-- C1 counterexample: the claim's "no rule evaluation occurs for this
fill" is false on the code. Concrete input: manual close at `t0 = 10`,
fill handled at `t0 + 0.8`, post-fill snapshot size 5 (stale by the
claim's own conditions), risk rules enabled with one loaded rule. The
fill is classified stale — `staleExecutionsFiltered` goes to 1, no trade
action counted — yet the risk wrapper still evaluates the loaded rule:
the engine's `rulesChecked` counter rises from 0 to 1. -/
theorem stale_fill_rule_evaluation_cex :
    (onOrderFilledWithRiskCheck true (54/5) none (some ⟨"MNQ", 5, "LONG"⟩) "BUY"
        none none (QueryOutcome.ok [⟨"MNQ", 5, 1, 100⟩])
        { initialListenerState with positionFlatTimestamp := some 10 }
        initialCacheState
        ⟨⟨none, none⟩, [⟨⟨true, 2, "high", false⟩, 0⟩], ⟨0, 0, 0⟩⟩).outcome =
      FillOutcome.staleIgnored ∧
    (onOrderFilledWithRiskCheck true (54/5) none (some ⟨"MNQ", 5, "LONG"⟩) "BUY"
        none none (QueryOutcome.ok [⟨"MNQ", 5, 1, 100⟩])
        { initialListenerState with positionFlatTimestamp := some 10 }
        initialCacheState
        ⟨⟨none, none⟩, [⟨⟨true, 2, "high", false⟩, 0⟩], ⟨0, 0, 0⟩⟩).listener.staleExecutionsFiltered
      = 1 ∧
    (onOrderFilledWithRiskCheck true (54/5) none (some ⟨"MNQ", 5, "LONG"⟩) "BUY"
        none none (QueryOutcome.ok [⟨"MNQ", 5, 1, 100⟩])
        { initialListenerState with positionFlatTimestamp := some 10 }
        initialCacheState
        ⟨⟨none, none⟩, [⟨⟨true, 2, "high", false⟩, 0⟩], ⟨0, 0, 0⟩⟩).riskEvaluated = true ∧
    (onOrderFilledWithRiskCheck true (54/5) none (some ⟨"MNQ", 5, "LONG"⟩) "BUY"
        none none (QueryOutcome.ok [⟨"MNQ", 5, 1, 100⟩])
        { initialListenerState with positionFlatTimestamp := some 10 }
        initialCacheState
        ⟨⟨none, none⟩, [⟨⟨true, 2, "high", false⟩, 0⟩], ⟨0, 0, 0⟩⟩).engine.stats.rulesChecked
      = 1 := by
  have h54 : (54 / 5 : ℚ) - 10 < ignoreReopenWindow := by
    norm_num [ignoreReopenWindow]
  have hst : isStaleAfterManualClose (54/5) (some (10 : Time))
      (some ⟨"MNQ", 5, "LONG"⟩) = true := by
    simp [isStaleAfterManualClose, withinWindowB, posNonzero, h54]
  refine ⟨?_, ?_, ?_, ?_⟩ <;>
    simp [onOrderFilledWithRiskCheck, onOrderFilled, hst, getCurrentPositionInfo,
      processEvent, runRules, MaxContractsRule.check, extractPositionData,
      initialCacheState, initialListenerState]

/-- C1 (amended): for every fill satisfying the stale conditions, the
fill handler bumps `staleExecutionsFiltered` by exactly one, emits the
stale-execution log, performs no classification — no per-action counter
changes — and leaves the confirmed position untouched (so a flat position
stays flat); however, when risk rules are enabled the combined handler
still forwards the fill to the rule engine, which checks every loaded
rule. -/
theorem stale_fill_suppression_amended (now : Time) (prevPos currPos : Option PosInfo)
    (side : String) (oc oa : Option String) (q : QueryOutcome)
    (s : ListenerState) (cache : CacheState) (eng : RuleEngineState)
    (h : isStaleAfterManualClose now s.positionFlatTimestamp currPos = true) :
    (onOrderFilledWithRiskCheck true now prevPos currPos side oc oa q s cache eng).outcome =
      FillOutcome.staleIgnored ∧
    (onOrderFilledWithRiskCheck true now prevPos currPos side oc oa q s cache
        eng).listener.staleExecutionsFiltered = s.staleExecutionsFiltered + 1 ∧
    (onOrderFilledWithRiskCheck true now prevPos currPos side oc oa q s cache
        eng).listener.tradeActions = s.tradeActions ∧
    (onOrderFilledWithRiskCheck true now prevPos currPos side oc oa q s cache
        eng).listener.lastConfirmedPosition = s.lastConfirmedPosition ∧
    (onOrderFilledWithRiskCheck true now prevPos currPos side oc oa q s cache
        eng).riskEvaluated = true ∧
    (onOrderFilledWithRiskCheck true now prevPos currPos side oc oa q s cache
        eng).engine.stats.rulesChecked = eng.stats.rulesChecked + eng.rules.length := by
  have hrr := runRules_length_breaches
    (RiskEvent.enriched oc oa (getCurrentPositionInfo true true now q cache).result)
    eng.rules
  have hcond : ¬ (("order_filled" : String) ≠ "position_updated" ∧
      ("order_filled" : String) ≠ "order_filled") := by simp
  refine ⟨?_, ?_, ?_, ?_, ?_, ?_⟩ <;>
      simp only [onOrderFilledWithRiskCheck, onOrderFilled, h, eq_self_iff_true,
        if_true, processEvent, if_neg hcond] <;>
      try rfl
  rw [hrr.1]

/-- C1 amended-claim witness: the stale scenario of the spec's test
vector (marker at 10, fill at 10.8, snapshot size 5, one loaded rule)
instantiates every hypothesis of the amended theorem. -/
theorem stale_fill_suppression_amended_witness :
    (onOrderFilledWithRiskCheck true (54/5) none (some ⟨"MNQ", 5, "LONG"⟩) "SELL"
        none none QueryOutcome.fail
        { initialListenerState with positionFlatTimestamp := some 10 }
        initialCacheState
        ⟨⟨none, none⟩, [⟨⟨true, 2, "high", false⟩, 0⟩], ⟨0, 0, 0⟩⟩).outcome =
      FillOutcome.staleIgnored ∧
    (onOrderFilledWithRiskCheck true (54/5) none (some ⟨"MNQ", 5, "LONG"⟩) "SELL"
        none none QueryOutcome.fail
        { initialListenerState with positionFlatTimestamp := some 10 }
        initialCacheState
        ⟨⟨none, none⟩, [⟨⟨true, 2, "high", false⟩, 0⟩], ⟨0, 0, 0⟩⟩).listener.tradeActions =
      initialTradeActions ∧
    (onOrderFilledWithRiskCheck true (54/5) none (some ⟨"MNQ", 5, "LONG"⟩) "SELL"
        none none QueryOutcome.fail
        { initialListenerState with positionFlatTimestamp := some 10 }
        initialCacheState
        ⟨⟨none, none⟩, [⟨⟨true, 2, "high", false⟩, 0⟩], ⟨0, 0, 0⟩⟩).engine.stats.rulesChecked
      = 1 := by
  have hstale : isStaleAfterManualClose (54/5)
      ({ initialListenerState with
          positionFlatTimestamp := some 10 } : ListenerState).positionFlatTimestamp
      (some ⟨"MNQ", 5, "LONG"⟩) = true := by
    have h54 : (54 / 5 : ℚ) - 10 < ignoreReopenWindow := by
      norm_num [ignoreReopenWindow]
    simp [isStaleAfterManualClose, withinWindowB, posNonzero, h54]
  have h := stale_fill_suppression_amended (54/5) none (some ⟨"MNQ", 5, "LONG"⟩) "SELL"
    none none QueryOutcome.fail
    { initialListenerState with positionFlatTimestamp := some 10 }
    initialCacheState
    ⟨⟨none, none⟩, [⟨⟨true, 2, "high", false⟩, 0⟩], ⟨0, 0, 0⟩⟩ hstale
  refine ⟨h.1, ?_, ?_⟩
  · rw [h.2.2.1]
    rfl
  · rw [h.2.2.2.2.2]
    rfl
